import Mathlib

/-!
Verification of the Nebula Sketch drawing studio against its specification.

The development shallowly embeds the repository's core:
* the Drawing Surface (`src/components/Canvas.tsx`): the pixel raster with
  `clearRect`-based clearing, `toDataURL` export, and the `startDrawing`
  gesture handler;
* the AI service layer (`src/services/gemini.ts`): the decode step of
  `analyzeSketch` and the image-extraction step of `generateProVision`;
* the Session Controller (`src/App.tsx`, the component the claim line
  numbers refer to): tool/color/width state, the `handleAIAnalyze`
  two-stage pipeline with its catch handler, palette write-back and tool
  selection.

Asynchronous collaborators (the two AI calls, the `aistudio` key dialog)
are passed in as explicit outcome parameters; side effects are recorded as
an event trace.
-/

namespace Nebula

/- ===================== Drawing Surface ===================== -/

/-- One raster pixel. `background` is the value `ctx.clearRect` resets pixels
to (the transparent clear value, which over the app's solid `#050505`
backdrop renders as the background); a freshly initialized canvas holds
`background` everywhere. `ink c` is a pixel painted with color `c`. -/
inductive Pixel
  | background
  | ink (c : String)
deriving DecidableEq, Repr

/-- The canvas raster: `width`/`height` mirror `canvas.width`/`canvas.height`,
`rows` holds the pixel content row by row. -/
structure Raster where
  width : Nat
  height : Nat
  rows : List (List Pixel)
deriving DecidableEq, Repr

/-- The raster's rows match its declared dimensions. -/
def wellFormed (r : Raster) : Prop :=
  r.rows.length = r.height ∧ ∀ row ∈ r.rows, row.length = r.width

/-- Clear the cells of one row whose column index (counting from `i`) lies in
`[x, x+w)`. Helper for `clearRect`. -/
def clearRowFrom (x w : Nat) : Nat → List Pixel → List Pixel
  | _, [] => []
  | i, p :: ps =>
      (if x ≤ i ∧ i < x + w then Pixel.background else p) :: clearRowFrom x w (i + 1) ps

/-- Apply `clearRowFrom` to the rows whose row index (counting from `j`) lies
in `[y, y+h)`. Helper for `clearRect`. -/
def clearRowsFrom (x y w h : Nat) : Nat → List (List Pixel) → List (List Pixel)
  | _, [] => []
  | j, row :: rest =>
      (if y ≤ j ∧ j < y + h then clearRowFrom x w 0 row else row)
        :: clearRowsFrom x y w h (j + 1) rest

/-- Embedding of `ctx.clearRect(x, y, w, h)`: every pixel inside the
rectangle is reset to the clear value. -/
def clearRect (x y w h : Nat) (r : Raster) : Raster :=
  { r with rows := clearRowsFrom x y w h 0 r.rows }

/-- Embedding of `clear()` from `Canvas.tsx`:
`ctx.clearRect(0, 0, canvas.width, canvas.height)`. -/
def clear (r : Raster) : Raster :=
  clearRect 0 0 r.width r.height r

/-- Embedding of `getCanvasData()` from `Canvas.tsx`:
`canvas.toDataURL('image/png')`, a lossless encoding of the current pixel
content, modelled as the pixel content itself. -/
def exportSnapshot (r : Raster) : List (List Pixel) :=
  r.rows

/-- The background-only raster of the given dimensions: the state of a
never-drawn canvas. -/
def backgroundOnly (w h : Nat) : Raster :=
  ⟨w, h, List.replicate h (List.replicate w Pixel.background)⟩

/-- The three drawing tools (`src/types.ts` and the `tool` prop of
`Canvas.tsx`). -/
inductive Tool
  | brush
  | eraser
  | neon
deriving DecidableEq, Repr

/-- The 2D drawing context state that `startDrawing` touches, plus the
component's `isDrawing` flag. `pathStart` models
`beginPath(); moveTo(x, y)`. -/
structure Ctx where
  strokeStyle : String
  lineWidth : Int
  shadowBlur : Nat
  shadowColor : String
  pathStart : Option (Int × Int)
  isDrawing : Bool
deriving DecidableEq, Repr

/-- Embedding of `startDrawing` from `Canvas.tsx` (lines 55-82): begins a
path at the pointer position, sets the neon glow when `tool === 'neon'`
(otherwise resets `shadowBlur` to 0, leaving `shadowColor` untouched), then
assigns `strokeStyle = color` and `lineWidth = width` unconditionally and
sets `isDrawing` to true. -/
def startDrawing (p : Int × Int) (tool : Tool) (color : String) (width : Int)
    (ctx : Ctx) : Ctx :=
  { ctx with
    pathStart := some p
    shadowBlur := if tool = Tool.neon then 15 else 0
    shadowColor := if tool = Tool.neon then color else ctx.shadowColor
    strokeStyle := color
    lineWidth := width
    isDrawing := true }

/- ===================== AI service layer ===================== -/

/-- The analysis response after `JSON.parse`: each field of the requested
schema may be absent from the decoded object (TypeScript casts the parse
result to `AIResponse` without checking). -/
structure DecodedAnalysis where
  critique : Option String
  suggestion : Option String
  palette : Option (List String)
  backstory : Option String
deriving DecidableEq, Repr

/-- The decoded form of the fallback text `'{}'`: an object with every
schema field absent. -/
def emptyDecoded : DecodedAnalysis :=
  ⟨none, none, none, none⟩

/-- Embedding of the decode step of `analyzeSketch`
(`src/services/gemini.ts` lines 53-55):
`const jsonStr = response.text || '{}'; return JSON.parse(jsonStr.trim());`.
`responseText` is the optional text of the model response (absent or empty
is falsy and falls back to `'{}'`, which parses to the empty object);
`decodeOf` gives the JSON value a text parses to (`none` when `JSON.parse`
throws, which the caller's try/catch turns into a pipeline failure). No
validation is applied to the decoded value before it is returned. -/
def analyzeSketchResult (responseText : Option String)
    (decodeOf : String → Option DecodedAnalysis) : Except String DecodedAnalysis :=
  match responseText with
  | none => Except.ok emptyDecoded
  | some s =>
      if s = "" then Except.ok emptyDecoded
      else
        match decodeOf s.trim with
        | some v => Except.ok v
        | none => Except.error "SyntaxError"

/-- One part of a stylization model response; `inlineData` carries the
base64 image data when present. -/
structure ResponsePart where
  inlineData : Option String
deriving DecidableEq, Repr

/-- One candidate of a stylization model response; `parts` models
`candidate.content.parts` (absent when either is missing). -/
structure VisionCandidate where
  parts : Option (List ResponsePart)
deriving DecidableEq, Repr

/-- A stylization model response: an optional candidate list. -/
structure VisionResponse where
  candidates : Option (List VisionCandidate)
deriving DecidableEq, Repr

/-- The first `inlineData` payload among the parts, if any (the loop with
`break` in `generateProVision`). -/
def firstInlineData : List ResponsePart → Option String
  | [] => none
  | p :: rest =>
      match p.inlineData with
      | some d => some d
      | none => firstInlineData rest

/-- Embedding of the image-extraction tail of `generateProVision`
(`src/services/gemini.ts` lines 85-95): `imageUrl` starts as `''`; when
`response.candidates && response.candidates[0].content.parts` holds, the
loop sets it to the data URI of the first part carrying `inlineData`; the
function then returns `imageUrl`, empty or not. An empty candidate list
makes `candidates[0]` undefined, so the `.content` access throws. -/
def generateProVisionResult (response : VisionResponse) : Except String String :=
  match response.candidates with
  | none => Except.ok ""
  | some [] => Except.error "TypeError"
  | some (c :: _) =>
      match c.parts with
      | none => Except.ok ""
      | some ps =>
          match firstInlineData ps with
          | some d => Except.ok ("data:image/png;base64," ++ d)
          | none => Except.ok ""

/- ===================== Session Controller (src/App.tsx) ===================== -/

/-- The typed shape of a successful analysis (`src/types.ts`). -/
structure AIResponse where
  critique : String
  suggestion : String
  palette : List String
  backstory : String
deriving DecidableEq, Repr

/-- The application state (`src/types.ts`): the spec's SessionPhase. -/
inductive AppState
  | drawing
  | analyzing
  | viewingResult
deriving DecidableEq, Repr

/-- The two analysis tiers of `handleAIAnalyze`. -/
inductive Mode
  | basic
  | pro
deriving DecidableEq, Repr

/-- The React state of the `App` component: brush color, brush width, active
tool, session phase, the stored analysis, the stored generated image and the
authorization flag. -/
structure Session where
  brushColor : String
  brushWidth : Int
  tool : Tool
  appState : AppState
  aiData : Option AIResponse
  generatedImg : Option String
  isKeySetup : Bool
deriving DecidableEq, Repr

/-- The `useState` initial values of `App`. -/
def initialSession : Session :=
  { brushColor := "#ffffff"
    brushWidth := 5
    tool := Tool.brush
    appState := AppState.drawing
    aiData := none
    generatedImg := none
    isKeySetup := false }

/-- Observable side effects of `handleAIAnalyze`, in order of occurrence:
the `aistudio.openSelectKey()` dialog, the `analyzeSketch` call, the
`generateProVision` call, and `alert` messages. -/
inductive Event
  | openSelectKey
  | analyzeCall (data instr : String)
  | visionCall (pr data : String)
  | alertShown (msg : String)
deriving DecidableEq, Repr

/-- Recognizes the stylization-call event. -/
def isVisionCall : Event → Bool
  | Event.visionCall _ _ => true
  | _ => false

/-- The environment a `handleAIAnalyze` run observes: whether
`canvasRef.current` and `window.aistudio` exist, the exported snapshot, and
the settled outcomes of the two awaited collaborator calls (the stylization
outcome as a function of the prompt it is called with). -/
structure AnalyzeEnv where
  canvasPresent : Bool
  aistudioPresent : Bool
  canvasData : String
  analyzeOutcome : Except String AIResponse
  visionOutcome : String → Except String String

/-- Whether the first list is an initial segment of the second. -/
def leadsWith : List Char → List Char → Bool
  | [], _ => true
  | _ :: _, [] => false
  | a :: as, b :: bs => a == b && leadsWith as bs

/-- Whether `pat` occurs as a contiguous subsequence of the list. -/
def containsSeq (pat : List Char) : List Char → Bool
  | [] => pat.isEmpty
  | c :: cs => leadsWith pat (c :: cs) || containsSeq pat cs

/-- Embedding of `err.message?.includes("Requested entity was not found")`
from the catch handler. -/
def includesNotFound (msg : String) : Bool :=
  containsSeq "Requested entity was not found".toList msg.toList

/-- Embedding of the catch block of `handleAIAnalyze` (`App.tsx` lines
82-95): a not-found message resets `isKeySetup`, alerts, and reopens the key
dialog when `aistudio` exists; any other message alerts generically; either
way the state returns to `drawing`. -/
def catchStep (msg : String) (aistudioPresent : Bool) (s : Session) :
    Session × List Event :=
  if includesNotFound msg then
    ({ s with isKeySetup := false, appState := AppState.drawing },
      Event.alertShown "Tu API Key parece ser inválida. Por favor, selecciona una de un proyecto con facturación activa."
        :: (if aistudioPresent then [Event.openSelectKey] else []))
  else
    ({ s with appState := AppState.drawing },
      [Event.alertShown "Las estrellas no están alineadas. Intenta de nuevo."])

/-- The continuation of `handleAIAnalyze` that runs when the awaited
`analyzeSketch` promise resolves successfully (`App.tsx` lines 72-95): it
stores the analysis via `setAiData`, runs (or skips) the stylization stage,
and transitions, all without consulting a request token or the session
phase at resolution time. `s` is the session state at the moment the
promise resolves. -/
def resumeAfterAnalyze (mode : Mode) (env : AnalyzeEnv) (analysis : AIResponse)
    (s : Session) : Session × List Event :=
  let s1 := { s with aiData := some analysis }
  match mode with
  | Mode.pro =>
      let vEv := Event.visionCall analysis.backstory env.canvasData
      match env.visionOutcome analysis.backstory with
      | Except.error msg =>
          let c := catchStep msg env.aistudioPresent s1
          (c.1, vEv :: c.2)
      | Except.ok img =>
          ({ s1 with generatedImg := some img, appState := AppState.viewingResult },
            [vEv])
  | Mode.basic =>
      ({ s1 with generatedImg := none, appState := AppState.viewingResult }, [])

/-- Embedding of `handleAIAnalyze` (`App.tsx` lines 59-96): returns early if
the canvas ref is null; for an unauthorized pro request it runs
`handleOpenKeyDialog` (which opens the key dialog and optimistically sets
`isKeySetup` when `aistudio` exists) and then proceeds; it enters
`analyzing`, calls `analyzeSketch` on the snapshot, and continues with
`resumeAfterAnalyze` on success or the catch handler on failure. The result
is the final session state and the ordered event trace. -/
def handleAIAnalyze (mode : Mode) (env : AnalyzeEnv) (s : Session) :
    Session × List Event :=
  if env.canvasPresent = false then (s, [])
  else
    let auth : Session × List Event :=
      if mode = Mode.pro ∧ s.isKeySetup = false then
        if env.aistudioPresent then
          ({ s with isKeySetup := true }, [Event.openSelectKey])
        else (s, [])
      else (s, [])
    let s2 := { auth.1 with appState := AppState.analyzing }
    let callEv := Event.analyzeCall env.canvasData "Enfócate en la composición."
    match env.analyzeOutcome with
    | Except.error msg =>
        let c := catchStep msg env.aistudioPresent s2
        (c.1, auth.2 ++ callEv :: c.2)
    | Except.ok analysis =>
        let r := resumeAfterAnalyze mode env analysis s2
        (r.1, auth.2 ++ callEv :: r.2)

/-- The color prop `App` passes to `Canvas`
(`color={tool === 'eraser' ? '#050505' : brushColor}`, `App.tsx` line 125). -/
def effectiveColor (s : Session) : String :=
  if s.tool = Tool.eraser then "#050505" else s.brushColor

/-- A stroke begun through the app: `Canvas.startDrawing` invoked with the
props `App` wires in (`tool={tool}`, `width={brushWidth}` and the effective
color). -/
def beginStrokeInApp (p : Int × Int) (s : Session) (ctx : Ctx) : Ctx :=
  startDrawing p s.tool (effectiveColor s) s.brushWidth ctx

/-- Embedding of clicking the i-th palette swatch of the result panel
(`App.tsx` lines 233-245): `onClick={() => setBrushColor(c)}` where `c` is
the i-th entry of the stored analysis's palette (the swatch exists only for
indices inside the palette). -/
def selectPaletteEntry (i : Nat) (s : Session) : Session :=
  match s.aiData with
  | some r =>
      match r.palette.get? i with
      | some c => { s with brushColor := c }
      | none => s
  | none => s

/-- Embedding of the toolbar tool buttons (`onClick={() => setTool(t)}`):
only the `tool` field changes. -/
def selectTool (t : Tool) (s : Session) : Session :=
  { s with tool := t }

/-- Embedding of the brush-width slider
(`<input type="range" min="1" max="50" ... onChange={... parseInt ...} />`):
`setBrushWidth` with the slider's value, which the control constrains to
the range 1..50. -/
def setBrushWidthFromSlider (v : Int) (s : Session) : Session :=
  { s with brushWidth := v }

/- ===================== Sample data ===================== -/

/-- A concrete successful analysis result. -/
def sampleResponse : AIResponse :=
  { critique := "Una crítica poética"
    suggestion := "Dibuja una nebulosa"
    palette := ["#111111", "#222222", "#333333", "#444444"]
    backstory := "Una historia de dos frases." }

/-- An environment for a pro request whose analysis stage succeeds and whose
stylization stage rejects. -/
def proFailEnv : AnalyzeEnv :=
  { canvasPresent := true
    aistudioPresent := true
    canvasData := "data:image/png;base64,AAAA"
    analyzeOutcome := Except.ok sampleResponse
    visionOutcome := fun _ => Except.error "fetch failed" }

/-- A session that already holds a valid key, about to issue a pro request. -/
def proSession : Session :=
  { initialSession with isKeySetup := true }

/-- The analysis carried by a superseded, late-arriving request. -/
def staleResponse : AIResponse :=
  { critique := "crítica vieja"
    suggestion := "sugerencia vieja"
    palette := ["#010101", "#020202", "#030303", "#040404"]
    backstory := "historia vieja" }

/-- The analysis stored by a newer, already-completed interaction. -/
def newerResponse : AIResponse :=
  { critique := "crítica nueva"
    suggestion := "sugerencia nueva"
    palette := ["#0a0a0a", "#0b0b0b", "#0c0c0c", "#0d0d0d"]
    backstory := "historia nueva" }

/-- A session that has moved out of `analyzing` (back in `drawing`, holding
a newer stored analysis) while an older request is still in flight. -/
def supersededSession : Session :=
  { initialSession with appState := AppState.drawing, aiData := some newerResponse }

/-- An environment whose stylization stage never runs (basic request). -/
def basicOkEnv : AnalyzeEnv :=
  { canvasPresent := true
    aistudioPresent := true
    canvasData := "data:image/png;base64,BBBB"
    analyzeOutcome := Except.ok sampleResponse
    visionOutcome := fun _ => Except.error "unreachable" }

/-- A stylization response that contains one candidate with one part but no
image data anywhere. -/
def noImageResponse : VisionResponse :=
  ⟨some [⟨some [⟨none⟩]⟩]⟩

/- ===================== Claims C1-C4 ===================== -/

/-- Claim C1 (code bug): a pro request in which `analyzeSketch` succeeds with
`sampleResponse` and `generateProVision` rejects does end in state `drawing`
and sets no generated image, but the Session Controller retains the
AIResponse of the failed attempt — `setAiData(analysis)` ran before the
stylization stage and the catch handler never undoes it, contradicting the
claimed atomicity of the two-stage pipeline. -/
theorem pro_stylize_failure_retains_aiData :
    (handleAIAnalyze Mode.pro proFailEnv proSession).1.appState = AppState.drawing ∧
    (handleAIAnalyze Mode.pro proFailEnv proSession).1.generatedImg = none ∧
    (handleAIAnalyze Mode.pro proFailEnv proSession).1.aiData = some sampleResponse :=
  ⟨rfl, rfl, rfl⟩

/-- Claim C2 (code bug): when the analysis response carries no text, the
decode step of `analyzeSketch` falls back to `'{}'` and succeeds with an
object in which every required schema field is absent — no validation
rejects the partially-populated result. -/
theorem analyze_missing_fields_not_rejected
    (d : String → Option DecodedAnalysis) :
    analyzeSketchResult none d = Except.ok emptyDecoded ∧
    emptyDecoded.critique = none ∧ emptyDecoded.suggestion = none ∧
    emptyDecoded.palette = none ∧ emptyDecoded.backstory = none :=
  ⟨rfl, rfl, rfl, rfl, rfl⟩

/-- Claim C3 (code bug): a stylization response containing no `inlineData`
in any part makes `generateProVision` resolve successfully with the empty
string instead of raising an error — an empty-success, contradicting the
required failure on absent image data. -/
theorem vision_no_image_is_empty_success :
    generateProVisionResult noImageResponse = Except.ok "" :=
  rfl

/-- Claim C4 (code bug): the continuation that runs when an in-flight
`analyzeSketch` promise resolves consults no request token and no current
phase; applied to a session that has already moved out of `analyzing` (back
to `drawing`, holding a newer stored analysis), it still overwrites
`aiData` with the stale result and forces the phase to `viewingResult` —
there is no stale-response guard. -/
theorem late_response_overwrites_newer_state :
    supersededSession.appState ≠ AppState.analyzing ∧
    (resumeAfterAnalyze Mode.basic basicOkEnv staleResponse supersededSession).1.aiData
      = some staleResponse ∧
    (resumeAfterAnalyze Mode.basic basicOkEnv staleResponse supersededSession).1.appState
      = AppState.viewingResult :=
  ⟨by decide, rfl, rfl⟩

/- ===================== Claim C5 ===================== -/

/-- Clearing a row from column index `i` with a window `[0, w)` that covers
all remaining cells turns the whole row into background pixels. -/
theorem clearRowFrom_covers (w : Nat) :
    ∀ (l : List Pixel) (i : Nat), i + l.length ≤ w →
      clearRowFrom 0 w i l = List.replicate l.length Pixel.background := by
  intro l
  induction l with
  | nil => intro i _; rfl
  | cons p ps ih =>
      intro i h
      have hlen : i + (ps.length + 1) ≤ w := by simpa [List.length_cons] using h
      have hc : 0 ≤ i ∧ i < 0 + w := ⟨Nat.zero_le i, by omega⟩
      simp only [clearRowFrom, List.length_cons, List.replicate_succ]
      rw [if_pos hc, ih (i + 1) (by omega)]

/-- Clearing rows from row index `j` with a window `[0, h)` that covers all
remaining rows, each of width `w`, yields the background-only rows. -/
theorem clearRowsFrom_covers (w h : Nat) :
    ∀ (rows : List (List Pixel)) (j : Nat), j + rows.length ≤ h →
      (∀ row ∈ rows, row.length = w) →
      clearRowsFrom 0 0 w h j rows =
        List.replicate rows.length (List.replicate w Pixel.background) := by
  intro rows
  induction rows with
  | nil => intro j _ _; rfl
  | cons row rest ih =>
      intro j hj hw
      have hlen : j + (rest.length + 1) ≤ h := by simpa [List.length_cons] using hj
      have hc : 0 ≤ j ∧ j < 0 + h := ⟨Nat.zero_le j, by omega⟩
      have hrow : row.length = w := hw row (List.mem_cons_self row rest)
      simp only [clearRowsFrom, List.length_cons, List.replicate_succ]
      rw [if_pos hc, clearRowFrom_covers w row 0 (by omega),
        ih (j + 1) (by omega) (fun r hr => hw r (List.mem_cons_of_mem row hr)), hrow]

/-- Claim C5 (confirmed): for every well-formed raster, whatever was drawn
on it, `clear()` followed by `exportSnapshot()` yields exactly the
background-only raster of the same dimensions — every pixel of the export
is the background value. -/
theorem clear_exportSnapshot_is_background (r : Raster) (hwf : wellFormed r) :
    exportSnapshot (clear r) = exportSnapshot (backgroundOnly r.width r.height) ∧
    ∀ row ∈ exportSnapshot (clear r), ∀ p ∈ row, p = Pixel.background := by
  obtain ⟨hlen, hrow⟩ := hwf
  have hmain : exportSnapshot (clear r) =
      List.replicate r.height (List.replicate r.width Pixel.background) := by
    show clearRowsFrom 0 0 r.width r.height 0 r.rows = _
    rw [clearRowsFrom_covers r.width r.height r.rows 0 (by omega) hrow, hlen]
  refine ⟨by rw [hmain]; rfl, ?_⟩
  rw [hmain]
  intro row hr p hp
  have hrep := List.eq_of_mem_replicate hr
  subst hrep
  exact List.eq_of_mem_replicate hp

/-- A concrete 2x2 raster with prior drawing history. -/
def sampleRaster : Raster :=
  ⟨2, 2,
    [[Pixel.ink "#ffffff", Pixel.background],
     [Pixel.ink "#7c3aed", Pixel.ink "#050505"]]⟩

/-- Witness for claim C5 at the concrete drawn 2x2 raster. -/
theorem clear_exportSnapshot_is_background_witness :
    wellFormed sampleRaster ∧
    (exportSnapshot (clear sampleRaster) =
        exportSnapshot (backgroundOnly sampleRaster.width sampleRaster.height) ∧
      ∀ row ∈ exportSnapshot (clear sampleRaster), ∀ p ∈ row, p = Pixel.background) :=
  ⟨⟨rfl, by decide⟩, clear_exportSnapshot_is_background sampleRaster ⟨rfl, by decide⟩⟩

/- ===================== Claim C6 ===================== -/

/-- A drawing context in its initial configuration. -/
def ctx0 : Ctx :=
  { strokeStyle := "#000000"
    lineWidth := 1
    shadowBlur := 0
    shadowColor := "#000000"
    pathStart := none
    isDrawing := false }

/-- Claim C6 counterexample: `startDrawing` invoked with the non-positive
width -5 neither rejects the stroke start (it still sets `isDrawing`) nor
clamps the width (it assigns `lineWidth = -5` unconditionally), so the
component itself does not enforce the width > 0 precondition. -/
theorem startDrawing_accepts_nonpositive_width :
    (startDrawing (0, 0) Tool.brush "#ffffff" (-5) ctx0).isDrawing = true ∧
    (startDrawing (0, 0) Tool.brush "#ffffff" (-5) ctx0).lineWidth = -5 :=
  ⟨rfl, rfl⟩

/-- Claim C6 as amended (proved): `startDrawing` itself performs no clamping
or rejection, but every stroke begun through the app has positive width:
`brushWidth` starts at 5 and is only ever replaced by a slider value, which
the range control constrains to 1..50, and `beginStrokeInApp` records that
width unchanged. -/
theorem app_stroke_width_positive (s : Session) (v : Int) (h1 : 1 ≤ v)
    (h2 : v ≤ 50) (p : Int × Int) (ctx : Ctx) :
    0 < (beginStrokeInApp p (setBrushWidthFromSlider v s) ctx).lineWidth ∧
    0 < (beginStrokeInApp p initialSession ctx).lineWidth := by
  unfold beginStrokeInApp startDrawing setBrushWidthFromSlider initialSession
  exact ⟨by simpa using by omega, by simp⟩

/-- Witness for the amended claim C6 at the concrete slider value 25. -/
theorem app_stroke_width_positive_witness :
    (1 : Int) ≤ 25 ∧ (25 : Int) ≤ 50 ∧
    (0 < (beginStrokeInApp (1, 2) (setBrushWidthFromSlider 25 initialSession) ctx0).lineWidth ∧
      0 < (beginStrokeInApp (1, 2) initialSession ctx0).lineWidth) :=
  ⟨by decide, by decide,
    app_stroke_width_positive initialSession 25 (by decide) (by decide) (1, 2) ctx0⟩

/- ===================== Claim C7 ===================== -/

/-- The catch handler emits alerts and possibly the key dialog, never a
stylization call. -/
theorem catchStep_no_vision (msg : String) (b : Bool) (s : Session) :
    (catchStep msg b s).2.countP isVisionCall = 0 := by
  unfold catchStep
  cases h : includesNotFound msg <;> cases b <;>
    simp [h, isVisionCall, List.countP_cons, List.countP_nil]

/-- Claim C7 (confirmed): a basic-mode request never triggers the
stylization call (its trace contains zero `visionCall` events, whatever the
analysis outcome), and on success the previously held GeneratedImage is
cleared and the session shows the result. -/
theorem basic_mode_no_stylize (s : Session) (env : AnalyzeEnv) :
    (handleAIAnalyze Mode.basic env s).2.countP isVisionCall = 0 ∧
    (∀ r, env.analyzeOutcome = Except.ok r → env.canvasPresent = true →
      (handleAIAnalyze Mode.basic env s).1.generatedImg = none ∧
      (handleAIAnalyze Mode.basic env s).1.appState = AppState.viewingResult) := by
  cases hc : env.canvasPresent with
  | false =>
      refine ⟨by simp [handleAIAnalyze, hc], ?_⟩
      intro r _ hcp
      simp [hc] at hcp
  | true =>
      cases ha : env.analyzeOutcome with
      | error msg =>
          refine ⟨?_, ?_⟩
          · simp [handleAIAnalyze, hc, ha, isVisionCall, List.countP_cons,
              List.countP_nil, List.countP_append, catchStep_no_vision]
          · intro r hr
            simp [ha] at hr
      | ok r0 =>
          refine ⟨?_, ?_⟩
          · simp [handleAIAnalyze, hc, ha, resumeAfterAnalyze, isVisionCall,
              List.countP_cons, List.countP_nil, List.countP_append]
          · intro r hr
            injection hr with h
            subst h
            simp [handleAIAnalyze, hc, ha, resumeAfterAnalyze]

/-- Witness for claim C7: a concrete successful basic-mode run. -/
theorem basic_mode_no_stylize_witness :
    (handleAIAnalyze Mode.basic basicOkEnv proSession).2.countP isVisionCall = 0 ∧
    (handleAIAnalyze Mode.basic basicOkEnv proSession).1.generatedImg = none ∧
    (handleAIAnalyze Mode.basic basicOkEnv proSession).1.appState = AppState.viewingResult :=
  ⟨(basic_mode_no_stylize proSession basicOkEnv).1,
    (basic_mode_no_stylize proSession basicOkEnv).2 sampleResponse rfl rfl⟩

/- ===================== Claim C8 ===================== -/

/-- Claim C8 (confirmed): any pro-mode request made while `isKeySetup` is
false first opens the external key dialog and only then issues the analysis
call — the trace starts with `openSelectKey` followed by the
`analyzeSketch` call. `handleAIAnalyze` is the only call site of the
pipeline, so this proceed-after-dialog policy is the single policy for
every session and environment. -/
theorem pro_unauthorized_opens_key_dialog_first (s : Session) (env : AnalyzeEnv)
    (hc : env.canvasPresent = true) (hk : s.isKeySetup = false)
    (ha : env.aistudioPresent = true) :
    ∃ rest, (handleAIAnalyze Mode.pro env s).2 =
      Event.openSelectKey ::
        Event.analyzeCall env.canvasData "Enfócate en la composición." :: rest := by
  cases ho : env.analyzeOutcome with
  | error msg =>
      refine ⟨?_, ?_⟩
      case _ => exact (catchStep msg env.aistudioPresent
        { s with isKeySetup := true, appState := AppState.analyzing }).2
      simp [handleAIAnalyze, hc, hk, ha, ho]
  | ok r =>
      refine ⟨?_, ?_⟩
      case _ => exact (resumeAfterAnalyze Mode.pro env r
        { s with isKeySetup := true, appState := AppState.analyzing }).2
      simp [handleAIAnalyze, hc, hk, ha, ho]

/-- Witness for claim C8: a concrete unauthorized pro-mode request. -/
theorem pro_unauthorized_opens_key_dialog_first_witness :
    basicOkEnv.canvasPresent = true ∧ initialSession.isKeySetup = false ∧
    ∃ rest, (handleAIAnalyze Mode.pro basicOkEnv initialSession).2 =
      Event.openSelectKey ::
        Event.analyzeCall basicOkEnv.canvasData "Enfócate en la composición." :: rest :=
  ⟨rfl, rfl,
    pro_unauthorized_opens_key_dialog_first initialSession basicOkEnv rfl rfl rfl⟩

/- ===================== Claim C9 ===================== -/

/-- Claim C9 (confirmed): clicking the i-th palette swatch of a completed
analysis sets the brush color to exactly that palette entry, and the next
stroke begun with the brush tool records exactly that color as its stroke
style. -/
theorem palette_select_sets_brush_color (s : Session) (r : AIResponse) (i : Nat)
    (c : String) (hd : s.aiData = some r) (hp : r.palette.get? i = some c)
    (ht : s.tool = Tool.brush) (p : Int × Int) (ctx : Ctx) :
    (selectPaletteEntry i s).brushColor = c ∧
    (beginStrokeInApp p (selectPaletteEntry i s) ctx).strokeStyle = c := by
  have hsel : selectPaletteEntry i s = { s with brushColor := c } := by
    simp only [selectPaletteEntry, hd, hp]
  rw [hsel]
  refine ⟨rfl, ?_⟩
  unfold beginStrokeInApp startDrawing effectiveColor
  simp [ht]

/-- A completed analysis whose palette holds the spec's example color. -/
def paletteResponse : AIResponse :=
  { critique := "cr"
    suggestion := "su"
    palette := ["#7c3aed", "#0ea5e9", "#f472b6", "#facc15"]
    backstory := "ba" }

/-- A session viewing the completed analysis `paletteResponse`. -/
def viewingSession : Session :=
  { initialSession with
    appState := AppState.viewingResult
    aiData := some paletteResponse }

/-- Witness for claim C9 at palette entry 0 = `#7c3aed`. -/
theorem palette_select_sets_brush_color_witness :
    (selectPaletteEntry 0 viewingSession).brushColor = "#7c3aed" ∧
    (beginStrokeInApp (3, 4) (selectPaletteEntry 0 viewingSession) ctx0).strokeStyle
      = "#7c3aed" :=
  palette_select_sets_brush_color viewingSession paletteResponse 0 "#7c3aed"
    rfl rfl rfl (3, 4) ctx0

/- ===================== Claim C10 ===================== -/

/-- Claim C10 (confirmed): selecting the eraser leaves the stored brush
color unchanged; while the eraser is active every stroke is begun with the
fixed background color `#050505` regardless of the stored color, and
switching back to the brush or neon tool begins strokes with the previously
selected color again. -/
theorem eraser_keeps_brush_color (s : Session) (p : Int × Int) (ctx : Ctx) :
    (selectTool Tool.eraser s).brushColor = s.brushColor ∧
    (beginStrokeInApp p (selectTool Tool.eraser s) ctx).strokeStyle = "#050505" ∧
    (beginStrokeInApp p (selectTool Tool.brush (selectTool Tool.eraser s)) ctx).strokeStyle
      = s.brushColor ∧
    (beginStrokeInApp p (selectTool Tool.neon (selectTool Tool.eraser s)) ctx).strokeStyle
      = s.brushColor := by
  unfold selectTool beginStrokeInApp startDrawing effectiveColor
  simp

end Nebula
